import Mathlib

/-
Verification of the Event Correlation & Buffered Logging Engine of
react-render-loop-tracer, embedded shallowly from
src/react-hook-babel-loader.cjs (runtime portion).

Modelling conventions:
- JavaScript values held in dependency arrays and state cells are opaque
  and compared by identity (Object.is); they are modelled as `JSVal := Nat`
  with equality standing for identity.
- `performance.now()` readings are modelled as natural numbers (the claims
  only compare timestamps and durations; `Math.round` is the identity here).
- Array indexing out of range yields `undefined` in JavaScript; list access
  is therefore modelled with `List.get?`, `none` standing for `undefined`.
- Console output is modelled as a list of output items tagged with the
  console channel chosen by `printSingle`.
-/

namespace RenderLoopTracer

/-- JavaScript values compared by identity (Object.is). -/
abbrev JSVal := Nat

/-- The three log entry severities of the runtime. -/
inductive LogType where
  | stateChange
  | effectRun
  | slowEffect
deriving DecidableEq, Repr

/-- The string tag the runtime uses for each entry type. -/
def LogType.tag : LogType → String
  | .stateChange => "state-change"
  | .effectRun => "effect-run"
  | .slowEffect => "slow-effect"

/-- A buffered log entry (`LogEntry` in the source). -/
structure LogEntry where
  message : String
  time : Nat
  type : LogType
  location : String
  countKey : String
deriving DecidableEq, Repr

/-- Console channels used by `printSingle` (console.log / console.info / console.warn). -/
inductive ConsoleChannel where
  | standard
  | info
  | warning
deriving DecidableEq, Repr

/-- `printSingle`: route a formatted line to a console channel by entry type. -/
def printSingle (type : LogType) (formatted : String) : ConsoleChannel × String :=
  if type = LogType.slowEffect then (ConsoleChannel.warning, formatted)
  else if type = LogType.effectRun then (ConsoleChannel.info, formatted)
  else (ConsoleChannel.standard, formatted)

/-- The per-entry loop of `printEntries`: running index per countKey,
`idx/total` shown only when the total for that key exceeds one. -/
def printEntriesGo (totals : String → Nat) (current : String → Nat) :
    List LogEntry → List (ConsoleChannel × String)
  | [] => []
  | entry :: rest =>
    let idx := current entry.countKey + 1
    let currentNext := fun k => if k = entry.countKey then idx else current k
    let total0 := totals entry.countKey
    let total := if total0 = 0 then 1 else total0
    let count := if total > 1 then " " ++ toString idx ++ "/" ++ toString total else ""
    printSingle entry.type ("[" ++ entry.type.tag ++ "]" ++ count ++ " " ++ entry.message)
      :: printEntriesGo totals currentNext rest

/-- `printEntries`: print a batch with `[type]` prefix and N/M counting per countKey. -/
def printEntries (entries : List LogEntry) : List (ConsoleChannel × String) :=
  let totals := fun k => (entries.filter (fun entry => entry.countKey = k)).length
  printEntriesGo totals (fun _ => 0) entries

/-- `flushBuffer`: print all buffered entries except `effect-run` ones, then
clear the buffer.  Returns (printed lines, buffer afterwards). -/
def flushBuffer (buffer : List LogEntry) :
    List (ConsoleChannel × String) × List LogEntry :=
  let toFlush := buffer.filter (fun entry => entry.type ≠ LogType.effectRun)
  (printEntries toFlush, [])

/-- Items of grouped console output (console.groupCollapsed / console.groupEnd). -/
inductive OutItem where
  | line (channel : ConsoleChannel) (text : String)
  | groupStart (label : String)
  | groupEnd
deriving DecidableEq, Repr

/-- Partition the buffer around a window `[wstart, wend]`, exactly as the
observer loops do: strictly before the start, within the window inclusive,
strictly after the end.  Relative order is preserved in each part. -/
def partitionBuffer : List LogEntry → Nat → Nat → List LogEntry × List LogEntry × List LogEntry
  | [], _, _ => ([], [], [])
  | entry :: rest, wstart, wend =>
    let parts := partitionBuffer rest wstart wend
    if entry.time < wstart then (entry :: parts.1, parts.2.1, parts.2.2)
    else if entry.time ≤ wend then (parts.1, entry :: parts.2.1, parts.2.2)
    else (parts.1, parts.2.1, entry :: parts.2.2)

/-- The composed group summary: "N effect→setState, M other effects". -/
def groupSummary (during : List LogEntry) : String :=
  let stateChanges := (during.filter (fun entry => entry.type = LogType.stateChange)).length
  let effectRuns := (during.filter (fun entry => entry.type ≠ LogType.stateChange)).length
  let parts :=
    (if stateChanges > 0 then [toString stateChanges ++ " effect→setState"] else []) ++
      (if effectRuns > 0 then [toString effectRuns ++ " other effects"] else [])
  String.intercalate ", " parts

/-- A completed long-task interval as reported by the longtask observer. -/
structure LongTask where
  startTime : Nat
  duration : Nat
deriving DecidableEq, Repr

/-- The collapsed group emitted for the during-partition of a long task
(empty when the during-partition is empty). -/
def longTaskGroupOut (task : LongTask) (during : List LogEntry) : List OutItem :=
  if 0 < during.length then
    OutItem.groupStart ("Long Task (" ++ toString task.duration ++ "ms) — " ++ groupSummary during)
      :: ((printEntries during).map (fun p => OutItem.line p.1 p.2) ++ [OutItem.groupEnd])
  else []

/-- One iteration of the longtask observer callback: partition the buffer,
print the before-partition individually (no filtering on this path), group
the during-partition, retain the after-partition. -/
def processLongTask (buffer : List LogEntry) (task : LongTask) :
    List OutItem × List LogEntry :=
  let parts := partitionBuffer buffer task.startTime (task.startTime + task.duration)
  (((printEntries parts.1).map (fun p => OutItem.line p.1 p.2)) ++ longTaskGroupOut task parts.2.1,
    parts.2.2)

/-- A PerformanceEventTiming-like report consumed by the INP observer.
`interactionId = 0` models a null/zero (falsy) interaction identifier. -/
structure PerfEventTiming where
  startTime : Nat
  duration : Nat
  processingStart : Nat
  processingEnd : Nat
  interactionId : Nat
  name : String
deriving DecidableEq, Repr

/-- The collapsed group emitted for the during-partition of a slow
interaction (empty when the during-partition is empty). -/
def interactionGroupOut (worst : PerfEventTiming) (during : List LogEntry) : List OutItem :=
  if 0 < during.length then
    OutItem.groupStart ("Slow Interaction: " ++ worst.name ++ " (" ++ toString worst.duration
        ++ "ms) — " ++ groupSummary during)
      :: ((printEntries during).map (fun p => OutItem.line p.1 p.2) ++ [OutItem.groupEnd])
  else []

/-- One per-interaction iteration of the INP observer callback: partition the
buffer at `[processingStart, processingEnd]` of the selected worst report,
print the before-partition with `effect-run` entries filtered out, group the
during-partition, retain the after-partition. -/
def processInteraction (buffer : List LogEntry) (worst : PerfEventTiming) :
    List OutItem × List LogEntry :=
  let parts := partitionBuffer buffer worst.processingStart worst.processingEnd
  (((printEntries (parts.1.filter (fun entry => entry.type ≠ LogType.effectRun))).map
        (fun p => OutItem.line p.1 p.2))
      ++ interactionGroupOut worst parts.2.1,
    parts.2.2)

/-- Append a report to its interaction-id group, preserving first-seen group
order and in-group arrival order (insertion-ordered Map semantics). -/
def addToGroups (groups : List (Nat × List PerfEventTiming)) (id : Nat)
    (entry : PerfEventTiming) : List (Nat × List PerfEventTiming) :=
  match groups with
  | [] => [(id, [entry])]
  | (k, g) :: rest =>
    if k = id then (k, g ++ [entry]) :: rest
    else (k, g) :: addToGroups rest id entry

/-- The grouping pass of the INP observer callback: reports with a falsy
(zero) interactionId are skipped; the rest are grouped by id. -/
def collectInteractions (reports : List PerfEventTiming) :
    List (Nat × List PerfEventTiming) :=
  reports.foldl
    (fun groups entry =>
      if entry.interactionId = 0 then groups
      else addToGroups groups entry.interactionId entry)
    []

/-- `entries.reduce((longest, curr) => longest.duration > curr.duration ? longest : curr)`
on a non-empty group, head first. -/
def worstOf (head : PerfEventTiming) (tail : List PerfEventTiming) : PerfEventTiming :=
  tail.foldl (fun longest curr => if longest.duration > curr.duration then longest else curr) head

/-- A whole INP observer callback: group the batch by interaction id, then for
each group process the buffer against the worst report's window.  (A group is
never empty by construction; the impossible empty case leaves state unchanged.) -/
def processINPBatch (buffer : List LogEntry) (reports : List PerfEventTiming) :
    List OutItem × List LogEntry :=
  (collectInteractions reports).foldl
    (fun acc group =>
      match group.2 with
      | [] => acc
      | h :: t =>
        let worst := worstOf h t
        let step := processInteraction acc.2 worst
        (acc.1 ++ step.1, step.2))
    ([], buffer)

-- ─── Dependency diffing ──────────────────────────────────────────────

/-- `getChangedDeps`: null when any of prevDeps, depNames, currentDeps is
absent; otherwise the names at positions where the current value is not
identical to the previous one, falling back to "dep[i]" when no (truthy)
name was supplied for position i. -/
def getChangedDeps (prevDeps : Option (List JSVal)) (currentDeps : Option (List JSVal))
    (depNames : Option (List String)) : Option (List String) :=
  match prevDeps, depNames, currentDeps with
  | some prev, some names, some current =>
    some ((List.range current.length).filterMap (fun i =>
      if prev.get? i = current.get? i then none
      else some (match names.get? i with
        | some s => if s = "" then "dep[" ++ toString i ++ "]" else s
        | none => "dep[" ++ toString i ++ "]")))
  | _, _, _ => none

-- ─── Tracked hooks ───────────────────────────────────────────────────

/-- The global execution-context object (`EffectTracker` in the source):
the currently executing instrumented effect, or null. -/
structure EffectTracker where
  location : String
  componentName : String
  changedDeps : Option (List String)
  depNames : Option (List String)
  stateWasSet : Bool
deriving DecidableEq, Repr

/-- The arguments of one call to `log` (timestamping and buffering are
modelled separately by the logging engine above). -/
structure LogCall where
  message : String
  type : LogType
  location : String
  countKey : String
deriving DecidableEq, Repr

/-- The reason string computed from a changed-dependency set: null means the
initial mount, the empty list a re-run with no detected dependency change. -/
def reasonFor (changedDeps : Option (List String)) : String :=
  match changedDeps with
  | none => "it was initially mounted"
  | some ds =>
    if ds.length = 0 then "it re-ran (no deps changed detected)"
    else String.intercalate ", " ds ++ " changed"

/-- The argument of a tracked state setter: a plain new value, or an updater
function applied to the locally mirrored current value. -/
inductive SetterArg where
  | val (v : JSVal)
  | updater (f : JSVal → JSVal)

/-- Compute the new value from the setter argument and the mirrored value. -/
def SetterArg.compute : SetterArg → JSVal → JSVal
  | .val v, _ => v
  | .updater f, value => f value

/-- The observable result of one call of a tracked-useState wrapper. -/
structure StateWrapperResult where
  mirror : JSVal
  tracker : Option EffectTracker
  logged : Option LogCall
  forwarded : SetterArg

/-- One invocation of the wrapper produced by `__trackedUseState`:
compute the new value; if an execution context is present and the value
differs by identity from the mirror, mark the context and emit a
`state-change` log call; always update the mirror and forward the original
argument to the raw framework setter. -/
def stateWrapperCall (stateName : String) (value : JSVal)
    (trackerSlot : Option EffectTracker) (valueOrUpdater : SetterArg) :
    StateWrapperResult :=
  let newValue := valueOrUpdater.compute value
  match trackerSlot with
  | some tracker =>
    if value ≠ newValue then
      let reason := reasonFor tracker.changedDeps
      { mirror := newValue
        tracker := some { tracker with stateWasSet := true }
        logged := some
          { message := "useEffect " ++ tracker.location ++ " in " ++ tracker.componentName
              ++ " changed useState \"" ++ stateName ++ "\" because " ++ reason
            type := LogType.stateChange
            location := tracker.location
            countKey := tracker.location ++ ":" ++ tracker.componentName }
        forwarded := valueOrUpdater }
    else
      { mirror := newValue, tracker := some tracker, logged := none
        forwarded := valueOrUpdater }
  | none =>
    { mirror := newValue, tracker := none, logged := none, forwarded := valueOrUpdater }

/-- Hook call-site metadata injected by the rewriter. -/
structure HookMeta where
  location : String
  componentName : String
  stateName : String
deriving DecidableEq, Repr

/-- A cached tracking wrapper: the wrapper's function-object identity plus
its metadata.  (Function identities are modelled as natural numbers.) -/
structure TrackedSetter where
  wrapperId : Nat
  meta : HookMeta
deriving DecidableEq, Repr

/-- WeakMap.get on the wrapper cache, keyed by raw-setter identity. -/
def weakMapGet (cache : List (Nat × TrackedSetter)) (key : Nat) : Option TrackedSetter :=
  match cache with
  | [] => none
  | (k, v) :: rest => if k = key then some v else weakMapGet rest key

/-- The caching step of `__trackedUseState` against `stateTrackerMap`: reuse
the cached wrapper for a known raw-setter identity, otherwise construct one
fresh wrapper and cache it. -/
def trackedUseStateCache (cache : List (Nat × TrackedSetter)) (rawSetStateId : Nat)
    (freshWrapperId : Nat) (meta : HookMeta) :
    List (Nat × TrackedSetter) × TrackedSetter :=
  match weakMapGet cache rawSetStateId with
  | some tracked => (cache, tracked)
  | none =>
    let tracked : TrackedSetter := { wrapperId := freshWrapperId, meta := meta }
    ((rawSetStateId, tracked) :: cache, tracked)

/-- The caching step of `__trackedUseReducer` against `reducerTrackerMap`:
identical discipline over its own WeakMap, keyed by raw-dispatch identity. -/
def trackedUseReducerCache (cache : List (Nat × TrackedSetter)) (rawDispatchId : Nat)
    (freshWrapperId : Nat) (meta : HookMeta) :
    List (Nat × TrackedSetter) × TrackedSetter :=
  match weakMapGet cache rawDispatchId with
  | some tracked => (cache, tracked)
  | none =>
    let tracked : TrackedSetter := { wrapperId := freshWrapperId, meta := meta }
    ((rawDispatchId, tracked) :: cache, tracked)

-- ─── Tracked effect implementation ───────────────────────────────────

/-- Errors thrown by JavaScript code, opaque to the instrumentation. -/
abbrev JSError := Nat

/-- The per-instance refs of `trackedEffectImpl`: `prevDepsRef` and
`isInitialRef`. -/
structure InstRefs where
  prevDeps : Option (List JSVal)
  isInitial : Bool
deriving Repr

/-- Everything one run of the instrumented effect callback produces: the
updated refs, the global context slot afterwards, the instrumentation's own
log calls, and the outcome (cleanup or propagated exception). -/
structure EffectRunResult where
  refs : InstRefs
  slot : Option EffectTracker
  logs : List LogCall
  result : Except JSError (Option Nat)

/-- The changed-dependency set computed at the top of the effect callback:
null on the very first run, otherwise the differ's answer with null coerced
to the empty list. -/
def computeChangedDeps (refs : InstRefs) (deps : Option (List JSVal))
    (depNames : Option (List String)) : Option (List String) :=
  if refs.isInitial then none
  else some ((getChangedDeps refs.prevDeps deps depNames).getD [])

/-- The fresh execution context installed before the effect body runs. -/
def installedTracker (location componentName : String) (depNames : Option (List String))
    (changedDeps : Option (List String)) : EffectTracker :=
  { location := location, componentName := componentName, changedDeps := changedDeps
    depNames := depNames, stateWasSet := false }

/-- The `slow-effect` log call emitted when the body took at least 8 ms. -/
def slowLogEntry (location componentName : String) (duration : Nat) : LogCall :=
  { message := "Slow effect: useEffect " ++ location ++ " in " ++ componentName
      ++ " took " ++ toString duration ++ "ms"
    type := LogType.slowEffect
    location := location
    countKey := location ++ ":" ++ componentName }

/-- The `effect-run` log call emitted when the body set no state. -/
def effectRunLogEntry (location componentName : String)
    (changedDeps : Option (List String)) : LogCall :=
  { message := "useEffect " ++ location ++ " in " ++ componentName ++ " ran because "
      ++ reasonFor changedDeps
    type := LogType.effectRun
    location := location
    countKey := location ++ ":" ++ componentName }

/-- One run of the callback `trackedEffectImpl` registers with the host
effect hook.  The effect body is modelled as a function receiving the
installed context object and returning the (possibly flag-mutated) context
together with either a cleanup value or a thrown error.  `startTime` is 0
exactly when no performance API is available; `endTime` is the clock reading
after the body.  Context restoration happens in a finally-equivalent way on
both outcomes; on a throw the remaining instrumentation is skipped and the
error propagates. -/
def effectCallbackRun
    (callback : EffectTracker → EffectTracker × Except JSError (Option Nat))
    (deps : Option (List JSVal)) (location componentName : String)
    (depNames : Option (List String)) (refs : InstRefs)
    (slot : Option EffectTracker) (startTime endTime : Nat) : EffectRunResult :=
  let changedDeps := computeChangedDeps refs deps depNames
  let refsNext : InstRefs := { prevDeps := deps, isInitial := false }
  let previousTracker := slot
  let tracker := installedTracker location componentName depNames changedDeps
  let res := callback tracker
  match res.2 with
  | .error e =>
    { refs := refsNext, slot := previousTracker, logs := [], result := .error e }
  | .ok cleanup =>
    let slowLogs :=
      if 0 < startTime then
        let duration := endTime - startTime
        if 8 ≤ duration then [slowLogEntry location componentName duration] else []
      else []
    let runLogs :=
      if res.1.stateWasSet then []
      else [effectRunLogEntry location componentName changedDeps]
    { refs := refsNext, slot := previousTracker, logs := slowLogs ++ runLogs
      result := .ok cleanup }

/-- An effect body that neither mutates state nor throws. -/
def inertBody : EffectTracker → EffectTracker × Except JSError (Option Nat) :=
  fun tracker => (tracker, Except.ok none)

-- ─── Helper lemmas ───────────────────────────────────────────────────

theorem printEntriesGo_length (totals : String → Nat) :
    ∀ (entries : List LogEntry) (current : String → Nat),
      (printEntriesGo totals current entries).length = entries.length := by
  intro entries
  induction entries with
  | nil => intro current; rfl
  | cons entry rest ih =>
    intro current
    simp only [printEntriesGo, List.length_cons]
    rw [ih]

theorem printEntries_length (entries : List LogEntry) :
    (printEntries entries).length = entries.length := by
  simp only [printEntries]
  exact printEntriesGo_length _ entries _

theorem partitionBuffer_countP (s e : Nat) (p : LogEntry → Bool) :
    ∀ buffer : List LogEntry,
      ((partitionBuffer buffer s e).1.countP p) + ((partitionBuffer buffer s e).2.1.countP p)
        + ((partitionBuffer buffer s e).2.2.countP p) = buffer.countP p := by
  intro buffer
  induction buffer with
  | nil => rfl
  | cons entry rest ih =>
    simp only [partitionBuffer]
    by_cases h1 : entry.time < s
    · simp only [if_pos h1, List.countP_cons]
      omega
    · by_cases h2 : entry.time ≤ e
      · simp only [if_neg h1, if_pos h2, List.countP_cons]
        omega
      · simp only [if_neg h1, if_neg h2, List.countP_cons]
        omega

-- ─── Claim theorems ──────────────────────────────────────────────────

/-- C1 counterexample: a single `effect-run` entry timestamped strictly
before the window start.  On the long-task path it IS printed immediately
(the claim says it is excluded there), and on the interaction path it is
dropped from the immediate before-print (the claim says it is retained
there).  Both halves of the claim fail at this input. -/
theorem c1_before_print_counterexample :
    (processLongTask
        [{ message := "m", time := 1, type := LogType.effectRun,
           location := "l", countKey := "" }]
        { startTime := 5, duration := 60 }).1
      = [OutItem.line ConsoleChannel.info "[effect-run] m"]
    ∧ (processInteraction
        [{ message := "m", time := 1, type := LogType.effectRun,
           location := "l", countKey := "" }]
        { startTime := 0, duration := 300, processingStart := 5, processingEnd := 65,
          interactionId := 7, name := "click" }).1
      = [] :=
  ⟨rfl, rfl⟩

/-- C1 (amended): for every arriving long-task window the whole
before-partition — `effect-run` entries included — is printed individually
and immediately (one line per entry), while for every arriving interaction
window the `effect-run` entries of the before-partition are excluded from
the immediate before-print; exclusion applies on the interaction path, not
the long-task path. -/
theorem c1_before_print_amended :
    ∀ (buffer : List LogEntry) (task : LongTask) (worst : PerfEventTiming),
      ((processLongTask buffer task).1
          = ((printEntries (partitionBuffer buffer task.startTime
                (task.startTime + task.duration)).1).map (fun p => OutItem.line p.1 p.2))
            ++ longTaskGroupOut task
                (partitionBuffer buffer task.startTime (task.startTime + task.duration)).2.1
        ∧ (printEntries (partitionBuffer buffer task.startTime
              (task.startTime + task.duration)).1).length
            = (partitionBuffer buffer task.startTime (task.startTime + task.duration)).1.length)
      ∧ ((processInteraction buffer worst).1
          = ((printEntries ((partitionBuffer buffer worst.processingStart
                  worst.processingEnd).1.filter
                  (fun entry => entry.type ≠ LogType.effectRun))).map
                (fun p => OutItem.line p.1 p.2))
            ++ interactionGroupOut worst
                (partitionBuffer buffer worst.processingStart worst.processingEnd).2.1
        ∧ (printEntries ((partitionBuffer buffer worst.processingStart
              worst.processingEnd).1.filter
              (fun entry => entry.type ≠ LogType.effectRun))).length
            = ((partitionBuffer buffer worst.processingStart worst.processingEnd).1.filter
                (fun entry => entry.type ≠ LogType.effectRun)).length) := by
  intro buffer task worst
  exact ⟨⟨rfl, printEntries_length _⟩, ⟨rfl, printEntries_length _⟩⟩

/-- C3 counterexample: the fallback flush on a buffer holding one
`effect-run` entry prints nothing yet empties the buffer, so that entry is
removed neither by being printed nor by being re-appended as the
after-partition tail — refuting "entries are removed only by being printed
or by being re-appended". -/
theorem c3_drain_counterexample :
    (flushBuffer [{ message := "m", time := 1, type := LogType.effectRun,
                    location := "l", countKey := "k" }]).1 = []
    ∧ (flushBuffer [{ message := "m", time := 1, type := LogType.effectRun,
                      location := "l", countKey := "k" }]).2 = []
    ∧ [({ message := "m", time := 1, type := LogType.effectRun, location := "l",
          countKey := "k" } : LogEntry)] ≠ [] :=
  ⟨rfl, rfl, by simp⟩

/-- C3 (amended): across all buffer-drain operations, entries are removed
only by being printed, by being re-appended as the after-partition tail for
the next signal, or by being discarded as suppressed `effect-run` entries
(in the fallback flush, and in the interaction path's before-print); each
drained entry is printed at most once per pass (the partition parts account
for every buffer entry exactly once and each printed entry yields exactly
one line), and flushing an empty buffer prints nothing. -/
theorem c3_drain_amended :
    (∀ (buffer : List LogEntry) (s e : Nat) (p : LogEntry → Bool),
      ((partitionBuffer buffer s e).1.countP p) + ((partitionBuffer buffer s e).2.1.countP p)
        + ((partitionBuffer buffer s e).2.2.countP p) = buffer.countP p)
    ∧ (∀ entries : List LogEntry, (printEntries entries).length = entries.length)
    ∧ (∀ (buffer : List LogEntry) (task : LongTask),
        (processLongTask buffer task).2
          = (partitionBuffer buffer task.startTime (task.startTime + task.duration)).2.2)
    ∧ (∀ (buffer : List LogEntry) (worst : PerfEventTiming),
        (processInteraction buffer worst).2
          = (partitionBuffer buffer worst.processingStart worst.processingEnd).2.2)
    ∧ flushBuffer [] = ([], [])
    ∧ (∀ buffer : List LogEntry,
        (flushBuffer buffer).1.length
          = (buffer.filter (fun entry => entry.type ≠ LogType.effectRun)).length
        ∧ (flushBuffer buffer).2 = []) := by
  refine ⟨fun buffer s e p => partitionBuffer_countP s e p buffer,
    printEntries_length, fun _ _ => rfl, fun _ _ => rfl, rfl, fun buffer => ⟨?_, rfl⟩⟩
  exact printEntries_length _

/-- C4 counterexample: a prior baseline exists (`some [0]`) and the value at
position 0 changed, yet the differ returns null because no names list was
supplied — refuting "returns null exactly when there is no prior baseline"
(the claim would require `some ["dep[0]"]` here). -/
theorem c4_differ_counterexample :
    getChangedDeps (some [0]) (some [1]) none = none
    ∧ (some [0] : Option (List JSVal)) ≠ none
    ∧ getChangedDeps (some [0]) (some [1]) none ≠ some ["dep[0]"] := by
  refine ⟨rfl, by simp, by simp [getChangedDeps]⟩

/-- C4 (amended): `getChangedDeps` returns null exactly when the prior
baseline, the names list, or the current list is absent; otherwise it
returns the symbolic names at the positions where the current value is not
identical to the previous one, falling back to "dep[i]" when no name was
supplied; diffing [a,b] → [a,c] with names ["x","y"] yields exactly ["y"]
(for b ≠ c), and diffing [a] → [a] yields []. -/
theorem c4_differ_amended :
    (∀ (p c : Option (List JSVal)) (n : Option (List String)),
      getChangedDeps p c n = none ↔ (p = none ∨ n = none ∨ c = none))
    ∧ (∀ a b c : JSVal, b ≠ c →
        getChangedDeps (some [a, b]) (some [a, c]) (some ["x", "y"]) = some ["y"])
    ∧ (∀ a : JSVal, getChangedDeps (some [a]) (some [a]) (some ["x"]) = some [])
    ∧ (∀ a b : JSVal, a ≠ b →
        getChangedDeps (some [a]) (some [b]) (some []) = some ["dep[0]"]) := by
  refine ⟨?_, ?_, ?_, ?_⟩
  · intro p c n
    rcases p with _ | prev <;> rcases n with _ | names <;> rcases c with _ | cur <;>
      simp [getChangedDeps]
  · intro a b c hbc
    simp [getChangedDeps, List.range_succ, hbc]
  · intro a
    simp [getChangedDeps, List.range_succ]
  · intro a b hab
    simp [getChangedDeps, List.range_succ, hab]
    rfl

/-- Closed witness for the hypotheses of `c4_differ_amended`. -/
theorem c4_differ_amended_witness :
    (1 : JSVal) ≠ 2
    ∧ getChangedDeps (some [0, 1]) (some [0, 2]) (some ["x", "y"]) = some ["y"] :=
  ⟨by decide, c4_differ_amended.2.1 0 1 2 (by decide)⟩

/-- C2: for every invocation of an instrumented effect, the global
execution-context slot equals its pre-invocation value once the invocation
completes — also when the body throws — and the body's outcome (cleanup
value or thrown error) reaches the caller exactly as the body produced it:
nothing is swallowed, wrapped, or replaced. -/
theorem c2_context_restore_and_propagation :
    ∀ (callback : EffectTracker → EffectTracker × Except JSError (Option Nat))
      (deps : Option (List JSVal)) (loc comp : String) (depNames : Option (List String))
      (refs : InstRefs) (slot : Option EffectTracker) (st et : Nat),
      (effectCallbackRun callback deps loc comp depNames refs slot st et).slot = slot
      ∧ (effectCallbackRun callback deps loc comp depNames refs slot st et).result
          = (callback (installedTracker loc comp depNames
              (computeChangedDeps refs deps depNames))).2 := by
  intro callback deps loc comp depNames refs slot st et
  simp only [effectCallbackRun]
  cases h : (callback (installedTracker loc comp depNames
      (computeChangedDeps refs deps depNames))).2 with
  | error e => simp [h]
  | ok c => simp [h]

/-- C5: a tracked state setter emits a `state-change` entry if and only if
the computed new value differs by identity from the mirrored current value
and the execution context is non-null; in every case it updates the mirror
to the computed value and forwards the original argument unchanged to the
raw framework setter. -/
theorem c5_state_wrapper :
    ∀ (stateName : String) (value : JSVal) (trackerSlot : Option EffectTracker)
      (arg : SetterArg),
      ((stateWrapperCall stateName value trackerSlot arg).logged ≠ none
          ↔ (arg.compute value ≠ value ∧ trackerSlot ≠ none))
      ∧ (stateWrapperCall stateName value trackerSlot arg).mirror = arg.compute value
      ∧ (stateWrapperCall stateName value trackerSlot arg).forwarded = arg
      ∧ (∀ lc, (stateWrapperCall stateName value trackerSlot arg).logged = some lc →
          lc.type = LogType.stateChange) := by
  intro stateName value trackerSlot arg
  cases trackerSlot with
  | none => simp [stateWrapperCall]
  | some tracker =>
    by_cases h : value = arg.compute value
    · simp [stateWrapperCall, ← h]
    · have h2 : arg.compute value ≠ value := fun hc => h hc.symm
      simp [stateWrapperCall, h, h2]

/-- Closed witness for the hypotheses of `c5_state_wrapper`. -/
theorem c5_state_wrapper_witness :
    (stateWrapperCall "s" 0
        (some { location := "l", componentName := "C", changedDeps := none,
                depNames := none, stateWasSet := false })
        (SetterArg.val 1)).logged
      = some { message := "useEffect l in C changed useState \"s\" because it was initially mounted",
               type := LogType.stateChange, location := "l", countKey := "l:C" }
    ∧ ({ message := "useEffect l in C changed useState \"s\" because it was initially mounted",
         type := LogType.stateChange, location := "l", countKey := "l:C" } : LogCall).type
      = LogType.stateChange :=
  ⟨rfl,
    (c5_state_wrapper "s" 0
      (some { location := "l", componentName := "C", changedDeps := none,
              depNames := none, stateWasSet := false })
      (SetterArg.val 1)).2.2.2 _ rfl⟩

/-- C10: when the rewriter supplied no symbolic names (or no current
dependency list), the differ returns null regardless of how the values
changed; `trackedEffectImpl` coerces that null to the empty list on every
non-initial run, so every such re-run is attributed the reason
"it re-ran (no deps changed detected)" even when dependency values did
change. -/
theorem c10_null_names_coercion :
    (∀ (p c : Option (List JSVal)), getChangedDeps p c none = none)
    ∧ (∀ (p : Option (List JSVal)) (n : Option (List String)),
        getChangedDeps p none n = none)
    ∧ (∀ (refs : InstRefs) (deps : Option (List JSVal)), refs.isInitial = false →
        computeChangedDeps refs deps none = some [])
    ∧ (∀ (callback : EffectTracker → EffectTracker × Except JSError (Option Nat))
        (deps : Option (List JSVal)) (loc comp : String) (refs : InstRefs)
        (slot : Option EffectTracker) (st et : Nat) (trAfter : EffectTracker)
        (c : Option Nat),
        refs.isInitial = false →
        callback (installedTracker loc comp none (computeChangedDeps refs deps none))
          = (trAfter, Except.ok c) →
        trAfter.stateWasSet = false →
        (effectCallbackRun callback deps loc comp none refs slot st et).logs.filter
            (fun l => l.type = LogType.effectRun)
          = [effectRunLogEntry loc comp (some [])])
    ∧ (effectRunLogEntry "loc" "Comp" (some [])).message
        = "useEffect loc in Comp ran because it re-ran (no deps changed detected)" := by
  have hnone : ∀ (p c : Option (List JSVal)), getChangedDeps p c none = none := by
    intro p c
    rcases p with _ | prev <;> rcases c with _ | cur <;> rfl
  have hcoerce : ∀ (refs : InstRefs) (deps : Option (List JSVal)), refs.isInitial = false →
      computeChangedDeps refs deps none = some [] := by
    intro refs deps hinit
    simp [computeChangedDeps, hinit, hnone]
  refine ⟨hnone, ?_, hcoerce, ?_, rfl⟩
  · intro p n
    rcases p with _ | prev <;> rcases n with _ | names <;> rfl
  · intro callback deps loc comp refs slot st et trAfter c hinit hcb hset
    have hc2 := hcoerce refs deps hinit
    simp only [effectCallbackRun]
    rw [hcb]
    simp only [hset, hc2]
    by_cases hst : 0 < st
    · by_cases hd : 8 ≤ et - st
      · simp [hst, hd, slowLogEntry, effectRunLogEntry, List.filter]
      · simp [hst, hd, effectRunLogEntry, List.filter]
    · simp [hst, effectRunLogEntry, List.filter]

/-- Closed witness for the hypotheses of `c10_null_names_coercion`. -/
theorem c10_null_names_coercion_witness :
    ({ prevDeps := some [5], isInitial := false } : InstRefs).isInitial = false
    ∧ inertBody (installedTracker "loc" "Comp" none
        (computeChangedDeps { prevDeps := some [5], isInitial := false } (some [6]) none))
      = (installedTracker "loc" "Comp" none
          (computeChangedDeps { prevDeps := some [5], isInitial := false } (some [6]) none),
         Except.ok none)
    ∧ (effectCallbackRun inertBody (some [6]) "loc" "Comp" none
        { prevDeps := some [5], isInitial := false } none 0 0).logs.filter
          (fun l => l.type = LogType.effectRun)
      = [effectRunLogEntry "loc" "Comp" (some [])] :=
  ⟨rfl, rfl,
    c10_null_names_coercion.2.2.2.1 inertBody (some [6]) "loc" "Comp"
      { prevDeps := some [5], isInitial := false } none 0 0 _ none rfl rfl rfl⟩

/-- C6: after each successfully completing effect invocation, an
`effect-run` entry is emitted if and only if the execution context's
mutation-occurred flag is false, with the reason derived from the
changed-dependency set; concretely, an effect with dependency [x] and no
mutation, run on mount and again after x changed, produces exactly two
effect-run entries citing "initially mounted" and "x changed". -/
theorem c6_effect_run_emission :
    (∀ (callback : EffectTracker → EffectTracker × Except JSError (Option Nat))
      (deps : Option (List JSVal)) (loc comp : String) (depNames : Option (List String))
      (refs : InstRefs) (slot : Option EffectTracker) (st et : Nat)
      (trAfter : EffectTracker) (c : Option Nat),
      callback (installedTracker loc comp depNames (computeChangedDeps refs deps depNames))
        = (trAfter, Except.ok c) →
      (effectCallbackRun callback deps loc comp depNames refs slot st et).logs.filter
          (fun l => l.type = LogType.effectRun)
        = (if trAfter.stateWasSet then []
           else [effectRunLogEntry loc comp (computeChangedDeps refs deps depNames)]))
    ∧ (effectCallbackRun inertBody (some [5]) "loc" "Comp" (some ["x"])
        { prevDeps := none, isInitial := true } none 0 0).logs
      = [effectRunLogEntry "loc" "Comp" none]
    ∧ (effectRunLogEntry "loc" "Comp" none).message
      = "useEffect loc in Comp ran because it was initially mounted"
    ∧ (effectCallbackRun inertBody (some [6]) "loc" "Comp" (some ["x"])
        (effectCallbackRun inertBody (some [5]) "loc" "Comp" (some ["x"])
          { prevDeps := none, isInitial := true } none 0 0).refs none 0 0).logs
      = [effectRunLogEntry "loc" "Comp" (some ["x"])]
    ∧ (effectRunLogEntry "loc" "Comp" (some ["x"])).message
      = "useEffect loc in Comp ran because x changed" := by
  refine ⟨?_, rfl, rfl, rfl, rfl⟩
  intro callback deps loc comp depNames refs slot st et trAfter c hcb
  simp only [effectCallbackRun]
  rw [hcb]
  by_cases hset : trAfter.stateWasSet
  · by_cases hst : 0 < st
    · by_cases hd : 8 ≤ et - st
      · simp [hset, hst, hd, slowLogEntry, List.filter]
      · simp [hset, hst, hd, List.filter]
    · simp [hset, hst, List.filter]
  · by_cases hst : 0 < st
    · by_cases hd : 8 ≤ et - st
      · simp [hset, hst, hd, slowLogEntry, effectRunLogEntry, List.filter]
      · simp [hset, hst, hd, effectRunLogEntry, List.filter]
    · simp [hset, hst, effectRunLogEntry, List.filter]

/-- Closed witness for the hypothesis of `c6_effect_run_emission`. -/
theorem c6_effect_run_emission_witness :
    (effectCallbackRun inertBody (some [5]) "witLoc" "Comp" (some ["x"])
        { prevDeps := none, isInitial := true } none 0 0).logs.filter
        (fun l => l.type = LogType.effectRun)
      = [effectRunLogEntry "witLoc" "Comp" none] := by
  have h := c6_effect_run_emission.1 inertBody (some [5]) "witLoc" "Comp" (some ["x"])
    { prevDeps := none, isInitial := true } none 0 0
    (installedTracker "witLoc" "Comp" (some ["x"])
      (computeChangedDeps { prevDeps := none, isInitial := true } (some [5]) (some ["x"])))
    none rfl
  simpa [installedTracker, computeChangedDeps] using h

/-- C7: for every successfully completing effect invocation measured by the
performance clock whose synchronous body took at least the fixed 8 ms
threshold, exactly one `slow-effect` entry is emitted, independent of
whether state was mutated; a 12 ms body with no mutation produces exactly
one slow-effect entry and one effect-run entry. -/
theorem c7_slow_effect_emission :
    (∀ (callback : EffectTracker → EffectTracker × Except JSError (Option Nat))
      (deps : Option (List JSVal)) (loc comp : String) (depNames : Option (List String))
      (refs : InstRefs) (slot : Option EffectTracker) (st et : Nat)
      (trAfter : EffectTracker) (c : Option Nat),
      callback (installedTracker loc comp depNames (computeChangedDeps refs deps depNames))
        = (trAfter, Except.ok c) →
      0 < st → 8 ≤ et - st →
      (effectCallbackRun callback deps loc comp depNames refs slot st et).logs.filter
          (fun l => l.type = LogType.slowEffect)
        = [slowLogEntry loc comp (et - st)])
    ∧ (effectCallbackRun inertBody (some []) "loc" "Comp" (some [])
        { prevDeps := none, isInitial := true } none 1 13).logs
      = [slowLogEntry "loc" "Comp" 12, effectRunLogEntry "loc" "Comp" none]
    ∧ (slowLogEntry "loc" "Comp" 12).message
      = "Slow effect: useEffect loc in Comp took 12ms" := by
  refine ⟨?_, rfl, rfl⟩
  intro callback deps loc comp depNames refs slot st et trAfter c hcb hst hd
  simp only [effectCallbackRun]
  rw [hcb]
  by_cases hset : trAfter.stateWasSet
  · simp [hset, hst, hd, slowLogEntry, List.filter]
  · simp [hset, hst, hd, slowLogEntry, effectRunLogEntry, List.filter]

/-- Closed witness for the hypotheses of `c7_slow_effect_emission`. -/
theorem c7_slow_effect_emission_witness :
    (0 : Nat) < 1 ∧ (8 : Nat) ≤ 13 - 1
    ∧ (effectCallbackRun inertBody (some []) "witLoc" "Comp" (some [])
        { prevDeps := none, isInitial := true } none 1 13).logs.filter
        (fun l => l.type = LogType.slowEffect)
      = [slowLogEntry "witLoc" "Comp" (13 - 1)] := by
  refine ⟨by decide, by decide, ?_⟩
  have h := c7_slow_effect_emission.1 inertBody (some []) "witLoc" "Comp" (some [])
    { prevDeps := none, isInitial := true } none 1 13
    (installedTracker "witLoc" "Comp" (some [])
      (computeChangedDeps { prevDeps := none, isInitial := true } (some []) (some [])))
    none rfl (by decide) (by decide)
  exact h

/-- C8: the wrapper caches of `__trackedUseState` and `__trackedUseReducer`
construct exactly one wrapper on first sight of a raw setter/dispatch
identity and cache it; every subsequent call observing the same identity
returns the identical cached wrapper with the cache unchanged (idempotent
wrapping). -/
theorem c8_wrapper_cache_idempotent :
    ∀ (cache : List (Nat × TrackedSetter)) (key fresh : Nat) (meta : HookMeta),
      (weakMapGet cache key = none →
        trackedUseStateCache cache key fresh meta
          = ((key, { wrapperId := fresh, meta := meta }) :: cache,
             { wrapperId := fresh, meta := meta })
        ∧ trackedUseReducerCache cache key fresh meta
          = ((key, { wrapperId := fresh, meta := meta }) :: cache,
             { wrapperId := fresh, meta := meta }))
      ∧ (∀ t, weakMapGet cache key = some t →
          trackedUseStateCache cache key fresh meta = (cache, t)
          ∧ trackedUseReducerCache cache key fresh meta = (cache, t))
      ∧ (∀ fresh2 meta2,
          trackedUseStateCache (trackedUseStateCache cache key fresh meta).1 key fresh2 meta2
            = trackedUseStateCache cache key fresh meta
          ∧ trackedUseReducerCache (trackedUseReducerCache cache key fresh meta).1 key
              fresh2 meta2
            = trackedUseReducerCache cache key fresh meta) := by
  intro cache key fresh meta
  refine ⟨?_, ?_, ?_⟩
  · intro hnone
    constructor <;> simp [trackedUseStateCache, trackedUseReducerCache, hnone]
  · intro t hsome
    constructor <;> simp [trackedUseStateCache, trackedUseReducerCache, hsome]
  · intro fresh2 meta2
    cases hget : weakMapGet cache key with
    | none =>
      have hstep : weakMapGet ((key, ({ wrapperId := fresh, meta := meta } : TrackedSetter))
          :: cache) key = some { wrapperId := fresh, meta := meta } := by
        simp [weakMapGet]
      constructor <;>
        simp [trackedUseStateCache, trackedUseReducerCache, hget, hstep]
    | some t =>
      constructor <;>
        simp [trackedUseStateCache, trackedUseReducerCache, hget]

/-- Closed witness for the hypotheses of `c8_wrapper_cache_idempotent`. -/
theorem c8_wrapper_cache_idempotent_witness :
    weakMapGet [] 3 = none
    ∧ trackedUseStateCache [] 3 7 { location := "l", componentName := "C", stateName := "s" }
      = ([(3, { wrapperId := 7,
                meta := { location := "l", componentName := "C", stateName := "s" } })],
         { wrapperId := 7,
           meta := { location := "l", componentName := "C", stateName := "s" } }) :=
  ⟨rfl,
    ((c8_wrapper_cache_idempotent [] 3 7
      { location := "l", componentName := "C", stateName := "s" }).1 rfl).1⟩

/-- Well-formedness of the interaction grouping: every group is keyed by a
non-zero interaction id and holds only reports carrying that id. -/
def GroupsWF (groups : List (Nat × List PerfEventTiming)) : Prop :=
  ∀ p ∈ groups, p.1 ≠ 0 ∧ ∀ r ∈ p.2, r.interactionId = p.1

theorem addToGroups_wf {groups : List (Nat × List PerfEventTiming)} {id : Nat}
    {entry : PerfEventTiming} (hwf : GroupsWF groups) (hid : id ≠ 0)
    (hentry : entry.interactionId = id) : GroupsWF (addToGroups groups id entry) := by
  induction groups with
  | nil =>
    intro p hp
    simp only [addToGroups, List.mem_singleton] at hp
    subst hp
    refine ⟨hid, ?_⟩
    intro r hr
    simp only [List.mem_singleton] at hr
    subst hr
    exact hentry
  | cons kg rest ih =>
    obtain ⟨k, g⟩ := kg
    have hhead := hwf (k, g) (List.mem_cons_self _ _)
    have hrest : GroupsWF rest := fun p hp => hwf p (List.mem_cons_of_mem _ hp)
    simp only [addToGroups]
    by_cases hk : k = id
    · subst hk
      simp only [if_pos rfl]
      intro p hp
      rcases List.mem_cons.mp hp with heq | hmem
      · subst heq
        refine ⟨hhead.1, ?_⟩
        intro r hr
        rcases List.mem_append.mp hr with hg | he
        · exact hhead.2 r hg
        · simp only [List.mem_singleton] at he
          subst he
          rw [hentry]
      · exact hrest p hmem
    · simp only [if_neg hk]
      intro p hp
      rcases List.mem_cons.mp hp with heq | hmem
      · subst heq
        exact hhead
      · exact ih hrest p hmem

theorem collectInteractions_foldl_wf :
    ∀ (reports : List PerfEventTiming) (init : List (Nat × List PerfEventTiming)),
      GroupsWF init →
      GroupsWF (reports.foldl
        (fun groups entry =>
          if entry.interactionId = 0 then groups
          else addToGroups groups entry.interactionId entry)
        init) := by
  intro reports
  induction reports with
  | nil => intro init h; exact h
  | cons entry rest ih =>
    intro init h
    simp only [List.foldl_cons]
    apply ih
    by_cases he : entry.interactionId = 0
    · simpa [he] using h
    · simpa [he] using addToGroups_wf h he rfl

theorem collectInteractions_wf (reports : List PerfEventTiming) :
    GroupsWF (collectInteractions reports) := by
  have h := collectInteractions_foldl_wf reports [] (by intro p hp; cases hp)
  simpa [collectInteractions] using h

theorem worstOf_cons (h c : PerfEventTiming) (t : List PerfEventTiming) :
    worstOf h (c :: t) = worstOf (if h.duration > c.duration then h else c) t := rfl

theorem worstOf_mem : ∀ (t : List PerfEventTiming) (h : PerfEventTiming),
    worstOf h t ∈ h :: t := by
  intro t
  induction t with
  | nil => intro h; simp [worstOf]
  | cons c t ih =>
    intro h
    rw [worstOf_cons]
    rcases List.mem_cons.mp (ih (if h.duration > c.duration then h else c)) with heq | hmem
    · rw [heq]
      by_cases hd : h.duration > c.duration
      · simp [hd]
      · simp [hd]
    · simp [List.mem_cons, hmem]

theorem le_duration_worstOf : ∀ (t : List PerfEventTiming) (h : PerfEventTiming),
    h.duration ≤ (worstOf h t).duration := by
  intro t
  induction t with
  | nil => intro h; simp [worstOf]
  | cons c t ih =>
    intro h
    rw [worstOf_cons]
    by_cases hd : h.duration > c.duration
    · simpa [hd] using ih h
    · have := ih c
      simp only [if_neg hd]
      omega

theorem worstOf_max : ∀ (t : List PerfEventTiming) (h r : PerfEventTiming),
    r ∈ h :: t → r.duration ≤ (worstOf h t).duration := by
  intro t
  induction t with
  | nil =>
    intro h r hr
    simp only [List.mem_singleton] at hr
    subst hr
    simp [worstOf]
  | cons c t ih =>
    intro h r hr
    rw [worstOf_cons]
    have step : r.duration ≤ (if h.duration > c.duration then h else c).duration ∨ r ∈ t := by
      rcases List.mem_cons.mp hr with heq | hmem
      · subst heq
        left
        by_cases hd : r.duration > c.duration <;> simp [hd] <;> omega
      · rcases List.mem_cons.mp hmem with heq | hmem2
        · subst heq
          left
          by_cases hd : h.duration > r.duration <;> simp [hd] <;> omega
        · right; exact hmem2
    rcases step with hle | hmem
    · exact le_trans hle (le_duration_worstOf t _)
    · exact ih _ r (List.mem_cons_of_mem _ hmem)

/-- C9: the INP observer discards every report with a null/zero interaction
identifier (no group contains one), groups the remaining reports by
identifier, and selects from each group exactly one report — one of maximal
duration — whose [processingStart, processingEnd] interval partitions the
buffer and whose name labels the printed group. -/
theorem c9_inp_selection :
    (∀ (reports : List PerfEventTiming) (p : Nat × List PerfEventTiming),
      p ∈ collectInteractions reports → p.1 ≠ 0 ∧ ∀ r ∈ p.2, r.interactionId = p.1)
    ∧ (∀ (reports : List PerfEventTiming) (r : PerfEventTiming),
        r.interactionId = 0 → ∀ p ∈ collectInteractions reports, r ∉ p.2)
    ∧ (∀ (h : PerfEventTiming) (t : List PerfEventTiming),
        worstOf h t ∈ h :: t ∧ ∀ r ∈ h :: t, r.duration ≤ (worstOf h t).duration)
    ∧ (∀ (buffer : List LogEntry) (worst : PerfEventTiming),
        (processInteraction buffer worst).2
          = (partitionBuffer buffer worst.processingStart worst.processingEnd).2.2
        ∧ (processInteraction buffer worst).1
          = ((printEntries ((partitionBuffer buffer worst.processingStart
                worst.processingEnd).1.filter
                (fun entry => entry.type ≠ LogType.effectRun))).map
              (fun q => OutItem.line q.1 q.2))
            ++ interactionGroupOut worst
                (partitionBuffer buffer worst.processingStart worst.processingEnd).2.1)
    ∧ (∀ (worst : PerfEventTiming) (during : List LogEntry), 0 < during.length →
        interactionGroupOut worst during
          = OutItem.groupStart ("Slow Interaction: " ++ worst.name ++ " ("
              ++ toString worst.duration ++ "ms) — " ++ groupSummary during)
            :: ((printEntries during).map (fun q => OutItem.line q.1 q.2)
              ++ [OutItem.groupEnd])) := by
  refine ⟨?_, ?_, ?_, ?_, ?_⟩
  · intro reports p hp
    exact collectInteractions_wf reports p hp
  · intro reports r hr0 p hp hrin
    have hwf := collectInteractions_wf reports p hp
    have := hwf.2 r hrin
    rw [hr0] at this
    exact hwf.1 this.symm
  · intro h t
    exact ⟨worstOf_mem t h, fun r hr => worstOf_max t h r hr⟩
  · intro buffer worst
    exact ⟨rfl, rfl⟩
  · intro worst during hlen
    simp [interactionGroupOut, hlen]

/-- Closed witness for the hypotheses of `c9_inp_selection`: a batch holding
two reports under interaction id 7 (durations 250 and 300) and one report
with id 0. -/
theorem c9_inp_selection_witness :
    (7, [({ startTime := 0, duration := 250, processingStart := 10, processingEnd := 40,
            interactionId := 7, name := "click" } : PerfEventTiming),
         { startTime := 1, duration := 300, processingStart := 12, processingEnd := 60,
           interactionId := 7, name := "click" }])
      ∈ collectInteractions
        [{ startTime := 0, duration := 250, processingStart := 10, processingEnd := 40,
           interactionId := 7, name := "click" },
         { startTime := 2, duration := 500, processingStart := 0, processingEnd := 9,
           interactionId := 0, name := "scroll" },
         { startTime := 1, duration := 300, processingStart := 12, processingEnd := 60,
           interactionId := 7, name := "click" }]
    ∧ (7 : Nat) ≠ 0
    ∧ ({ startTime := 2, duration := 500, processingStart := 0, processingEnd := 9,
         interactionId := 0, name := "scroll" } : PerfEventTiming)
        ∉ [({ startTime := 0, duration := 250, processingStart := 10, processingEnd := 40,
              interactionId := 7, name := "click" } : PerfEventTiming),
           { startTime := 1, duration := 300, processingStart := 12, processingEnd := 60,
             interactionId := 7, name := "click" }] := by
  refine ⟨by decide, ?_, ?_⟩
  · have h := (c9_inp_selection.1
      [{ startTime := 0, duration := 250, processingStart := 10, processingEnd := 40,
         interactionId := 7, name := "click" },
       { startTime := 2, duration := 500, processingStart := 0, processingEnd := 9,
         interactionId := 0, name := "scroll" },
       { startTime := 1, duration := 300, processingStart := 12, processingEnd := 60,
         interactionId := 7, name := "click" }]
      (7, [{ startTime := 0, duration := 250, processingStart := 10, processingEnd := 40,
             interactionId := 7, name := "click" },
           { startTime := 1, duration := 300, processingStart := 12, processingEnd := 60,
             interactionId := 7, name := "click" }])
      (by decide))
    exact h.1
  · have h := c9_inp_selection.2.1
      [{ startTime := 0, duration := 250, processingStart := 10, processingEnd := 40,
         interactionId := 7, name := "click" },
       { startTime := 2, duration := 500, processingStart := 0, processingEnd := 9,
         interactionId := 0, name := "scroll" },
       { startTime := 1, duration := 300, processingStart := 12, processingEnd := 60,
         interactionId := 7, name := "click" }]
      { startTime := 2, duration := 500, processingStart := 0, processingEnd := 9,
        interactionId := 0, name := "scroll" }
      rfl
      (7, [{ startTime := 0, duration := 250, processingStart := 10, processingEnd := 40,
             interactionId := 7, name := "click" },
           { startTime := 1, duration := 300, processingStart := 12, processingEnd := 60,
             interactionId := 7, name := "click" }])
      (by decide)
    exact h

end RenderLoopTracer
